import Mathlib

/-!
Shallow embedding of the gesture-classification and action-dispatch pipeline
of the `lillinput` repository (crates `lillinput` and `lillinput-cli`),
together with theorems settling the claims about it.

Conventions of the embedding:
* Rust `f64` values are modelled as real numbers (`ℝ`); `f64::atan2` is
  modelled by `Complex.arg`, `f64::sqrt` by `Real.sqrt`, and `f64::round`
  (round half away from zero) by an explicit `rustRound`.
* Rust `i32` is modelled as `ℤ` (the only operations used are comparisons
  against the small constants 3 and 4, so wrap-around cannot occur).
* Fallible Rust functions returning `Result` are modelled with `Except`;
  a Rust panic (`unwrap` on `None`, out-of-bounds indexing, `todo!()`)
  is modelled by a dedicated `panicked` constructor.
* External collaborators (the `shlex` splitter, `std::process::Command`,
  the i3 IPC transport) are modelled by passing their outcome as an
  explicit argument.
-/

namespace Lillinput

/-- Modelled from the spec: the 16-variant `ActionEvent` enumeration
({ThreeFinger, FourFinger} × {Left, LeftUp, Up, RightUp, Right, RightDown,
Down, LeftDown}).  The enum declaration itself is missing from `src/`
(`events/mod.rs` holds a stale 8-variant version), but its variants and
their order are fixed by `opts.rs::get_actions_for_event`,
`defaultprocessor.rs::_end_event_to_action_event` and
`test_utils.rs::default_test_settings`. -/
inductive ActionEvent
  | threeFingerSwipeLeft
  | threeFingerSwipeLeftUp
  | threeFingerSwipeUp
  | threeFingerSwipeRightUp
  | threeFingerSwipeRight
  | threeFingerSwipeRightDown
  | threeFingerSwipeDown
  | threeFingerSwipeLeftDown
  | fourFingerSwipeLeft
  | fourFingerSwipeLeftUp
  | fourFingerSwipeUp
  | fourFingerSwipeRightUp
  | fourFingerSwipeRight
  | fourFingerSwipeRightDown
  | fourFingerSwipeDown
  | fourFingerSwipeLeftDown
  deriving DecidableEq, BEq, Repr

/-- The `strum` kebab-case rendering of an `ActionEvent`
(`#[strum(serialize_all = "kebab_case")]`), used as the key of the
`actions` table in the application settings. -/
def actionEventToString : ActionEvent → String
  | .threeFingerSwipeLeft => "three-finger-swipe-left"
  | .threeFingerSwipeLeftUp => "three-finger-swipe-left-up"
  | .threeFingerSwipeUp => "three-finger-swipe-up"
  | .threeFingerSwipeRightUp => "three-finger-swipe-right-up"
  | .threeFingerSwipeRight => "three-finger-swipe-right"
  | .threeFingerSwipeRightDown => "three-finger-swipe-right-down"
  | .threeFingerSwipeDown => "three-finger-swipe-down"
  | .threeFingerSwipeLeftDown => "three-finger-swipe-left-down"
  | .fourFingerSwipeLeft => "four-finger-swipe-left"
  | .fourFingerSwipeLeftUp => "four-finger-swipe-left-up"
  | .fourFingerSwipeUp => "four-finger-swipe-up"
  | .fourFingerSwipeRightUp => "four-finger-swipe-right-up"
  | .fourFingerSwipeRight => "four-finger-swipe-right"
  | .fourFingerSwipeRightDown => "four-finger-swipe-right-down"
  | .fourFingerSwipeDown => "four-finger-swipe-down"
  | .fourFingerSwipeLeftDown => "four-finger-swipe-left-down"

/-- The order in which `ActionEvent::iter()` (strum `EnumIter`) yields the
variants: declaration order. -/
def allActionEvents : List ActionEvent :=
  [.threeFingerSwipeLeft, .threeFingerSwipeLeftUp, .threeFingerSwipeUp,
   .threeFingerSwipeRightUp, .threeFingerSwipeRight, .threeFingerSwipeRightDown,
   .threeFingerSwipeDown, .threeFingerSwipeLeftDown,
   .fourFingerSwipeLeft, .fourFingerSwipeLeftUp, .fourFingerSwipeUp,
   .fourFingerSwipeRightUp, .fourFingerSwipeRight, .fourFingerSwipeRightDown,
   .fourFingerSwipeDown, .fourFingerSwipeLeftDown]

/-- `FingerCount` from `events/mod.rs`. -/
inductive FingerCount
  | threeFinger
  | fourFinger
  deriving DecidableEq, Repr

/-- `ProcessorError` from `events/errors.rs` (the payload of
`UnsupportedSwipeEvent` is dropped: it is only carried for logging). -/
inductive ProcessorError
  | unsupportedFingerCount (n : ℤ)
  | unsupportedSwipeEvent
  | displacementBelowThreshold (threshold : ℝ)
  | seatError

/-- `FingerCount::try_from` (`impl TryFrom<i32> for FingerCount`,
`events/mod.rs` lines 50-60): 3 and 4 map to the two variants, anything
else is `UnsupportedFingerCount(value)`. -/
def fingerCountTryFrom (value : ℤ) : Except ProcessorError FingerCount :=
  if value = 3 then .ok .threeFinger
  else if value = 4 then .ok .fourFinger
  else .error (.unsupportedFingerCount value)

/-- `ActionError::ExecutionError { type_, message }` from
`actions/errors.rs`. -/
inductive ActionError
  | executionError (type_ : String) (message : String)
  deriving DecidableEq, Repr

/-- Outcome of running an action body that may panic: `ok`, a returned
`ActionError`, or a Rust panic (`unwrap` on `None` / out-of-bounds index). -/
inductive ExecOutcome
  | ok
  | err (e : ActionError)
  | panicked
  deriving DecidableEq, Repr

/-- Whether an `ExecOutcome` is a returned error (not a panic). -/
def ExecOutcome.isErr : ExecOutcome → Bool
  | .err _ => true
  | _ => false

/-- `CommandAction::execute_command` (`actions/commandaction.rs` lines
28-45).  The external collaborators are passed in as arguments:
`splitResult` is what `shlex::split(&self.command)` returns (`none` when
shell-word splitting fails), and `outputResult` is what
`Command::new(..).args(..).output()` returns (`Except.ok` whenever the
process was spawned and waited for, regardless of its exit code;
`Except.error` carries the OS error message).  The source calls
`.unwrap()` on the split result and indexes `split_commands[0]`, so a
failed split or an empty token list is a panic, not a returned error. -/
def commandExecuteCommand (splitResult : Option (List String))
    (outputResult : Except String Unit) : ExecOutcome :=
  match splitResult with
  | none => .panicked
  | some [] => .panicked
  | some (_program :: _args) =>
    match outputResult with
    | .ok _ => .ok
    | .error e => .err (.executionError "command" e)

/-- The i3 connection handle.  Its structure is irrelevant to the claims;
only its presence in the shared slot matters. -/
abbrev I3Conn : Type := Unit

/-- State of the shared connection slot (`Rc<RefCell<Option<I3Connection>>>`),
instrumented with the trace of values written to it so that frame
properties can be stated. -/
structure SlotState where
  value : Option I3Conn
  writes : List (Option I3Conn)

/-- Writing a value into the shared slot (`*connection_option = ...`). -/
def slotWrite (s : SlotState) (v : Option I3Conn) : SlotState :=
  { value := v, writes := s.writes ++ [v] }

/-- `I3Action::execute_command` (`actions/i3action.rs` lines 35-67) as a
function of the slot contents and of the transport outcome.  `runResult`
is what `connection.run_command(&self.command)` returns: an error message
on transport failure, or the list of per-sub-command success flags of the
reply (`command_reply.outcomes[i].success`). -/
def i3ExecuteCommand (slotValue : Option I3Conn)
    (runResult : Except String (List Bool)) : Except ActionError Unit :=
  match slotValue with
  | none => .error (.executionError "i3" "i3 connection is not set")
  | some _connection =>
    match runResult with
    | .error e => .error (.executionError "i3" e)
    | .ok outcomes =>
      if outcomes.any (fun x => !x) then
        .error (.executionError "i3" "unsuccessful outcome(s)")
      else
        .ok ()

/-- `I3Action::execute_command` threaded through the slot state: the body
borrows the cell (`borrow_mut`) and reads it, but contains no assignment
to the cell, so the state moves through unchanged. -/
def i3ExecuteCommandST (s : SlotState) (runResult : Except String (List Bool)) :
    Except ActionError Unit × SlotState :=
  (i3ExecuteCommand s.value runResult, s)

/-- `StringifiedAction` from `opts.rs`: an action coming from
configuration, as a `{type}:{command}` pair. -/
structure ConfigAction where
  type_ : String
  command : String
  deriving DecidableEq, Repr

/-- The fields of the resolved `Settings` (`settings.rs`) consumed by
`extract_action_map`: the per-event action table (a map keyed by the
kebab-case `ActionEvent` name) and the enabled action types.  The other
fields (`verbose`, `seat`, `threshold`) are not read by the embedded
functions and are omitted. -/
structure SettingsModel where
  enabledActionTypes : List String
  actions : List (String × List ConfigAction)
  deriving DecidableEq, Repr

/-- An action instance stored in the registry: `CommandAction` or
`I3Action` (the latter sharing the connection slot). -/
inductive RegisteredAction
  | command (cmd : String)
  | i3 (cmd : String)
  deriving DecidableEq, Repr

/-- `extract_action_map` (`lillinput-cli/src/settings.rs` lines 312-384).
`connectResult` is the outcome of the external `I3Connection::connect()`.
The function:
* creates the shared slot holding `None`;
* if any configured action has type `"i3"`, attempts to connect and writes
  the outcome into the slot (`Some(conn)` on success, `None` on failure),
  recording `connection_exists`;
* then, for each `ActionEvent` in iteration order, if the settings table
  has an entry for the event's name, inserts the parsed action list for
  that event (command actions always; i3 actions only when
  `connection_exists`, dropped with a warning otherwise; unknown types
  dropped with a warning).  Events whose name is absent from the settings
  table get no registry entry at all. -/
def extractActionMap (settings : SettingsModel)
    (connectResult : Except String I3Conn) :
    List (ActionEvent × List RegisteredAction) × SlotState :=
  let slot0 : SlotState := { value := none, writes := [] }
  let anyI3 := settings.actions.any fun kv => kv.2.any fun s => s.type_ == "i3"
  let init : Bool × SlotState :=
    if anyI3 then
      match connectResult with
      | .ok conn => (true, slotWrite slot0 (some conn))
      | .error _ => (false, slotWrite slot0 none)
    else (false, slot0)
  let connectionExists := init.1
  let slot := init.2
  let actionMap := allActionEvents.filterMap fun actionEvent =>
    match settings.actions.lookup (actionEventToString actionEvent) with
    | some arguments =>
      some (actionEvent, arguments.filterMap fun value =>
        if value.type_ == "command" then
          some (RegisteredAction.command value.command)
        else if value.type_ == "i3" then
          (if connectionExists then some (RegisteredAction.i3 value.command) else none)
        else
          none)
    | none => none
  (actionMap, slot)

/-- `impl Default for Settings` (`lillinput-cli/src/settings.rs` lines
34-59): the production default action table.  It lists entries for only
the eight axis-direction events; the eight diagonal events have no entry. -/
def defaultSettings : SettingsModel :=
  { enabledActionTypes := ["i3"]
    actions :=
      [("three-finger-swipe-left", [⟨"i3", "workspace prev"⟩]),
       ("three-finger-swipe-right", [⟨"i3", "workspace next"⟩]),
       ("three-finger-swipe-up", []),
       ("three-finger-swipe-down", []),
       ("four-finger-swipe-left", []),
       ("four-finger-swipe-right", []),
       ("four-finger-swipe-up", []),
       ("four-finger-swipe-down", [])] }

/-- `ControllerError` from `controllers/errors.rs` (the wrapped
processor/libinput variants are not needed by the claims). -/
inductive ControllerError
  | unsupportedFingerCount (n : ℤ)
  | unsupportedSwipeEvent
  | displacementBelowThreshold (threshold : ℝ)
  | noActionsRegistered (event : ActionEvent)

/-- The action-execution loop of `DefaultController::receive_end_event`
(`controllers/defaultcontroller.rs` lines 88-95): each action in the list
is executed in order; a failure is logged as a warning and the loop
continues.  The embedding is generic in the action type `α` and its
execution behaviour `exec`, and returns the trace of executed actions (in
execution order) together with the warnings that were logged. -/
def dispatchLoop {α : Type} (exec : α → Except ActionError Unit) :
    List α → List α × List ActionError
  | [] => ([], [])
  | a :: rest =>
    let step := exec a
    let rec' := dispatchLoop exec rest
    match step with
    | .ok _ => (a :: rec'.1, rec'.2)
    | .error e => (a :: rec'.1, e :: rec'.2)

/-- `DefaultController::receive_end_event` (`defaultcontroller.rs` lines
68-96) after classification: look the classified `ActionEvent` up in the
registry (`.ok_or(ControllerError::NoActionsRegistered(..))`), execute
every registered action in order (warning on failures), and return `Ok`. -/
def receiveEndEvent {α : Type} (exec : α → Except ActionError Unit)
    (actions : List (ActionEvent × List α)) (actionEvent : ActionEvent) :
    Except ControllerError (List α × List ActionError) :=
  match actions.lookup actionEvent with
  | none => .error (.noActionsRegistered actionEvent)
  | some l => .ok (dispatchLoop exec l)

/-- The warnings produced by running `exec` over a list: one per failing
action, in order. -/
def warningsOf {α : Type} (exec : α → Except ActionError Unit) (l : List α) :
    List ActionError :=
  l.filterMap fun a => match exec a with
    | .ok _ => none
    | .error e => some e

theorem dispatchLoop_eq {α : Type} (exec : α → Except ActionError Unit)
    (l : List α) : dispatchLoop exec l = (l, warningsOf exec l) := by
  induction l with
  | nil => rfl
  | cons a rest ih =>
    simp only [dispatchLoop, ih, warningsOf, List.filterMap_cons]
    cases exec a <;> simp [warningsOf]

/-- Rust `y.atan2(x)`: the angle of the point `(x, y)`, in `(-π, π]`,
modelled by `Complex.arg (x + y·i)`. -/
noncomputable def atan2 (y x : ℝ) : ℝ := Complex.arg (↑x + ↑y * Complex.I)

/-- Rust `f64::round`: round half away from zero. -/
noncomputable def rustRound (x : ℝ) : ℤ :=
  if 0 ≤ x then ⌊x + 1 / 2⌋ else ⌈x - 1 / 2⌉

/-- The angle computation inside `get_event_octant`
(`defaultprocessor.rs` lines 136-143): `-dy.atan2(-dx)`, shifted by `2π`
if negative, then scaled by `1 / 2π` to land in `[0, 1)`. -/
noncomputable def eventAngle (dx dy : ℝ) : ℝ :=
  (if atan2 (-dy) (-dx) < 0 then atan2 (-dy) (-dx) + 2 * Real.pi
   else atan2 (-dy) (-dx)) / (2 * Real.pi)

/-- `get_event_octant` (nested function of
`DefaultProcessor::_end_event_to_action_event`, `defaultprocessor.rs`
lines 136-154): round the scaled angle to the nearest of the 8 octants,
wrapping 8 back to 0.  The source stores the octant in an `i8`; it is
modelled as `ℤ` (the rounded value always lies in `[0, 8]`, which is
proved below, so the narrowing cast cannot truncate). -/
noncomputable def get_event_octant (dx dy : ℝ) : ℤ :=
  if rustRound (eventAngle dx dy * 8) = 8 then 0
  else rustRound (eventAngle dx dy * 8)

/-- The 16-arm match at the end of
`DefaultProcessor::_end_event_to_action_event` (`defaultprocessor.rs`
lines 171-190).  The `none` result models the `(_, _) => todo!()`
fall-through arm, which panics if reached. -/
def octantToActionEvent (octant : ℤ) (fc : FingerCount) : Option ActionEvent :=
  match fc with
  | .threeFinger =>
    if octant = 0 then some .threeFingerSwipeLeft
    else if octant = 1 then some .threeFingerSwipeLeftUp
    else if octant = 2 then some .threeFingerSwipeUp
    else if octant = 3 then some .threeFingerSwipeRightUp
    else if octant = 4 then some .threeFingerSwipeRight
    else if octant = 5 then some .threeFingerSwipeRightDown
    else if octant = 6 then some .threeFingerSwipeDown
    else if octant = 7 then some .threeFingerSwipeLeftDown
    else none
  | .fourFinger =>
    if octant = 0 then some .fourFingerSwipeLeft
    else if octant = 1 then some .fourFingerSwipeLeftUp
    else if octant = 2 then some .fourFingerSwipeUp
    else if octant = 3 then some .fourFingerSwipeRightUp
    else if octant = 4 then some .fourFingerSwipeRight
    else if octant = 5 then some .fourFingerSwipeRightDown
    else if octant = 6 then some .fourFingerSwipeDown
    else if octant = 7 then some .fourFingerSwipeLeftDown
    else none

/-- Result of `_end_event_to_action_event`, with the possibility of a
panic (the `todo!()` arm). -/
inductive EndEventResult
  | ok (event : ActionEvent)
  | err (e : ProcessorError)
  | panicked

/-- `DefaultProcessor::_end_event_to_action_event` (`defaultprocessor.rs`
lines 119-191): check the finger count, discard displacements whose
magnitude `√(dx² + dy²)` is below the threshold, apply the axis-inversion
flags, and map the octant and finger count through the 16-arm match.  The
processor fields `threshold`, `invert_x`, `invert_y` are passed as
arguments. -/
noncomputable def end_event_to_action_event (threshold : ℝ)
    (invert_x invert_y : Bool) (dx dy : ℝ) (finger_count : ℤ) :
    EndEventResult :=
  match fingerCountTryFrom finger_count with
  | .error e => .err e
  | .ok finger_count_as_enum =>
    if Real.sqrt (dx ^ 2 + dy ^ 2) < threshold then
      .err (.displacementBelowThreshold threshold)
    else
      match octantToActionEvent
          (get_event_octant (if invert_x then -dx else dx)
            (if invert_y then -dy else dy)) finger_count_as_enum with
      | some event => .ok event
      | none => .panicked

/-- A swipe sub-event, as matched by `DefaultProcessor::process_event`
(`GestureSwipeEvent`): `Begin`, `Update` (with deltas), `End` (with the
finger count), or any other variant of the non-exhaustive enum. -/
inductive SwipeEvent
  | begin
  | update (ddx ddy : ℝ)
  | endEvent (finger_count : ℤ)
  | other

/-- Result of `DefaultProcessor::process_event`, with the possibility of
a panic propagating from `_end_event_to_action_event`. -/
inductive ProcessResult
  | ok (event : Option ActionEvent)
  | err (e : ProcessorError)
  | panicked

/-- `DefaultProcessor::process_event` (`defaultprocessor.rs` lines
89-117): `Begin` resets the accumulated displacement to `(0, 0)`;
`Update` adds its deltas; `End` classifies the accumulated displacement
(leaving it untouched); any other swipe sub-event is an
`UnsupportedSwipeEvent` error.  The function returns the result together
with the new `(dx, dy)` accumulator. -/
noncomputable def process_event (threshold : ℝ) (invert_x invert_y : Bool)
    (event : SwipeEvent) (dx dy : ℝ) : ProcessResult × ℝ × ℝ :=
  match event with
  | .begin => (.ok none, 0, 0)
  | .update ddx ddy => (.ok none, dx + ddx, dy + ddy)
  | .endEvent finger_count =>
    (match end_event_to_action_event threshold invert_x invert_y dx dy finger_count with
     | .ok event => .ok (some event)
     | .err e => .err e
     | .panicked => .panicked, dx, dy)
  | .other => (.err .unsupportedSwipeEvent, dx, dy)

/-- If `t² ≤ a` and `0 ≤ t` then `√a` is not below `t` (used to discharge
the threshold check at concrete inputs). -/
theorem not_sqrt_lt {a t : ℝ} (ht : 0 ≤ t) (h : t ^ 2 ≤ a) :
    ¬ Real.sqrt a < t := by
  refine not_lt.mpr ?_
  calc t = Real.sqrt (t ^ 2) := (Real.sqrt_sq ht).symm
  _ ≤ Real.sqrt a := Real.sqrt_le_sqrt h

/-- The scaled angle always lies in `[0, 1)`. -/
theorem eventAngle_mem (dx dy : ℝ) :
    0 ≤ eventAngle dx dy ∧ eventAngle dx dy < 1 := by
  have hπ : 0 < Real.pi := Real.pi_pos
  have h2π : (0:ℝ) < 2 * Real.pi := by linarith
  have harg := Complex.arg_mem_Ioc (↑(-dx) + ↑(-dy) * Complex.I)
  rw [Set.mem_Ioc] at harg
  unfold eventAngle atan2
  set a := Complex.arg (↑(-dx) + ↑(-dy) * Complex.I) with ha
  by_cases hc : a < 0
  · rw [if_pos hc]
    constructor
    · exact div_nonneg (by linarith [harg.1]) h2π.le
    · rw [div_lt_one h2π]; linarith
  · rw [if_neg hc]
    push_neg at hc
    constructor
    · exact div_nonneg hc h2π.le
    · rw [div_lt_one h2π]; linarith [harg.2]

/-- For an argument in `[0, 8)`, `rustRound` lands in `[0, 8]`. -/
theorem rustRound_bounds {x : ℝ} (h₀ : 0 ≤ x) (h₁ : x < 8) :
    0 ≤ rustRound x ∧ rustRound x ≤ 8 := by
  rw [rustRound, if_pos h₀]
  constructor
  · exact Int.floor_nonneg.mpr (by linarith)
  · have h9 : ⌊x + 1 / 2⌋ < (9:ℤ) := Int.floor_lt.mpr (by push_cast; linarith)
    omega

/-- The octant produced by `get_event_octant` always lies in `[0, 7]`. -/
theorem get_event_octant_bounds (dx dy : ℝ) :
    0 ≤ get_event_octant dx dy ∧ get_event_octant dx dy ≤ 7 := by
  obtain ⟨h₀, h₁⟩ := eventAngle_mem dx dy
  obtain ⟨hr₀, hr₁⟩ := rustRound_bounds (x := eventAngle dx dy * 8)
    (by linarith) (by linarith)
  unfold get_event_octant
  by_cases h8 : rustRound (eventAngle dx dy * 8) = 8
  · rw [if_pos h8]; omega
  · rw [if_neg h8]; omega

/-- The 16-arm match is total on octants `0..7`, for both finger counts. -/
theorem octantToActionEvent_total (octant : ℤ) (fc : FingerCount)
    (h₀ : 0 ≤ octant) (h₁ : octant ≤ 7) :
    ∃ e, octantToActionEvent octant fc = some e := by
  interval_cases octant <;> cases fc <;> exact ⟨_, rfl⟩

/-- Helper for evaluating `get_event_octant` at a concrete displacement
from the value of the scaled angle. -/
theorem get_event_octant_eq {dx dy : ℝ} {q : ℝ} {n : ℤ}
    (hq : eventAngle dx dy = q) (h₀ : 0 ≤ q * 8)
    (h₁ : (n:ℝ) ≤ q * 8 + 1 / 2) (h₂ : q * 8 + 1 / 2 < n + 1) (hn : n ≠ 8) :
    get_event_octant dx dy = n := by
  unfold get_event_octant
  rw [hq, rustRound, if_pos h₀, Int.floor_eq_iff.mpr ⟨h₁, h₂⟩, if_neg hn]

/-- `atan2 0 x = π` for negative `x`. -/
theorem atan2_zero_neg {x : ℝ} (hx : x < 0) : atan2 0 x = Real.pi := by
  unfold atan2
  rw [Complex.ofReal_zero, zero_mul, add_zero]
  exact Complex.arg_ofReal_of_neg hx

/-- `atan2 0 x = 0` for nonnegative `x`. -/
theorem atan2_zero_nonneg {x : ℝ} (hx : 0 ≤ x) : atan2 0 x = 0 := by
  unfold atan2
  rw [Complex.ofReal_zero, zero_mul, add_zero]
  exact Complex.arg_ofReal_of_nonneg hx

/-- `atan2 y 0 = π/2` for positive `y`. -/
theorem atan2_pos_zero {y : ℝ} (hy : 0 < y) : atan2 y 0 = Real.pi / 2 := by
  unfold atan2
  rw [Complex.ofReal_zero, zero_add, Complex.arg_real_mul _ hy, Complex.arg_I]

/-- `atan2 (-y) 0 = -(π/2)` for positive `y`. -/
theorem atan2_neg_zero {y : ℝ} (hy : 0 < y) :
    atan2 (-y) 0 = -(Real.pi / 2) := by
  unfold atan2
  have h : (↑(-y) : ℂ) * Complex.I = ↑y * (-Complex.I) := by
    push_cast; ring
  rw [Complex.ofReal_zero, zero_add, h, Complex.arg_real_mul _ hy,
    Complex.arg_neg_I]

/-- `atan2 r r = π/4` for positive `r`. -/
theorem atan2_diag {r : ℝ} (hr : 0 < r) : atan2 r r = Real.pi / 4 := by
  have hπ : 0 < Real.pi := Real.pi_pos
  have hs : Real.sqrt 2 * Real.sqrt 2 = 2 := Real.mul_self_sqrt (by norm_num)
  have hs' : ((Real.sqrt 2 : ℝ) : ℂ) * ((Real.sqrt 2 : ℝ) : ℂ) = 2 := by
    exact_mod_cast congrArg (fun t : ℝ => (t : ℂ)) hs
  have hrs : (0:ℝ) < r * Real.sqrt 2 := by positivity
  have key : (↑r : ℂ) + ↑r * Complex.I =
      ↑(r * Real.sqrt 2) *
        (Complex.cos ↑(Real.pi / 4) + Complex.sin ↑(Real.pi / 4) * Complex.I) := by
    rw [← Complex.ofReal_cos, ← Complex.ofReal_sin, Real.cos_pi_div_four,
      Real.sin_pi_div_four]
    push_cast
    linear_combination (-(r / 2) * (1 + Complex.I)) * hs'
  unfold atan2
  rw [key, Complex.arg_mul_cos_add_sin_mul_I hrs
    (Set.mem_Ioc.mpr ⟨by linarith, by linarith⟩)]

theorem fingerCountTryFrom_three : fingerCountTryFrom 3 = .ok .threeFinger := rfl

theorem fingerCountTryFrom_four : fingerCountTryFrom 4 = .ok .fourFinger := rfl

theorem eventAngle_10_0 : eventAngle 10 0 = 1 / 2 := by
  have hπ : 0 < Real.pi := Real.pi_pos
  have h : atan2 (-(0:ℝ)) (-(10:ℝ)) = Real.pi := by
    rw [neg_zero]; exact atan2_zero_neg (by norm_num)
  unfold eventAngle
  rw [h, if_neg (not_lt.mpr hπ.le), div_eq_iff (by positivity)]
  ring

theorem eventAngle_neg10_0 : eventAngle (-10) 0 = 0 := by
  have h : atan2 (-(0:ℝ)) (-(-10:ℝ)) = 0 := by
    rw [neg_zero, neg_neg]; exact atan2_zero_nonneg (by norm_num)
  unfold eventAngle
  rw [h, if_neg (lt_irrefl 0), zero_div]

theorem eventAngle_0_neg10 : eventAngle 0 (-10) = 1 / 4 := by
  have hπ : 0 < Real.pi := Real.pi_pos
  have h : atan2 (-(-10:ℝ)) (-(0:ℝ)) = Real.pi / 2 := by
    rw [neg_neg, neg_zero]; exact atan2_pos_zero (by norm_num)
  unfold eventAngle
  rw [h, if_neg (not_lt.mpr (by positivity)), div_eq_iff (by positivity)]
  ring

theorem eventAngle_0_10 : eventAngle 0 10 = 3 / 4 := by
  have hπ : 0 < Real.pi := Real.pi_pos
  have h : atan2 (-(10:ℝ)) (-(0:ℝ)) = -(Real.pi / 2) := by
    rw [neg_zero]; exact atan2_neg_zero (by norm_num)
  unfold eventAngle
  rw [h, if_pos (by linarith), div_eq_iff (by positivity)]
  ring

theorem eventAngle_neg20_neg20 : eventAngle (-20) (-20) = 1 / 8 := by
  have hπ : 0 < Real.pi := Real.pi_pos
  have h : atan2 (-(-20:ℝ)) (-(-20:ℝ)) = Real.pi / 4 := by
    rw [neg_neg]; exact atan2_diag (by norm_num)
  unfold eventAngle
  rw [h, if_neg (not_lt.mpr (by positivity)), div_eq_iff (by positivity)]
  ring

theorem octant_10_0 : get_event_octant 10 0 = 4 :=
  get_event_octant_eq eventAngle_10_0 (by norm_num) (by norm_num) (by norm_num)
    (by decide)

theorem octant_neg10_0 : get_event_octant (-10) 0 = 0 :=
  get_event_octant_eq eventAngle_neg10_0 (by norm_num) (by norm_num) (by norm_num)
    (by decide)

theorem octant_0_neg10 : get_event_octant 0 (-10) = 2 :=
  get_event_octant_eq eventAngle_0_neg10 (by norm_num) (by norm_num) (by norm_num)
    (by decide)

theorem octant_0_10 : get_event_octant 0 10 = 6 :=
  get_event_octant_eq eventAngle_0_10 (by norm_num) (by norm_num) (by norm_num)
    (by decide)

theorem octant_neg20_neg20 : get_event_octant (-20) (-20) = 1 :=
  get_event_octant_eq eventAngle_neg20_neg20 (by norm_num) (by norm_num)
    (by norm_num) (by decide)

/-- Evaluation helper for the classifier: once the finger count parses,
the threshold test fails, the octant is known and the table entry is
known, the classification result is fixed. -/
theorem classify_eval {threshold dx dy : ℝ} {ix iy : Bool} {fc : ℤ}
    {fce : FingerCount} {n : ℤ} {e : ActionEvent}
    (hfc : fingerCountTryFrom fc = .ok fce)
    (hth : ¬ Real.sqrt (dx ^ 2 + dy ^ 2) < threshold)
    (hoct : get_event_octant (if ix then -dx else dx) (if iy then -dy else dy) = n)
    (htab : octantToActionEvent n fce = some e) :
    end_event_to_action_event threshold ix iy dx dy fc = .ok e := by
  unfold end_event_to_action_event
  rw [hfc]
  dsimp only
  rw [if_neg hth, hoct, htab]

/-- C5: with threshold 5 and no inversion, the four axis displacements
`(10, 0)`, `(-10, 0)`, `(0, -10)`, `(0, 10)` classify as
Right/Left/Up/Down for three fingers, and as the corresponding
four-finger events for finger count 4. -/
theorem c5_axis_swipe_classification :
    end_event_to_action_event 5 false false 10 0 3 = .ok .threeFingerSwipeRight ∧
    end_event_to_action_event 5 false false (-10) 0 3 = .ok .threeFingerSwipeLeft ∧
    end_event_to_action_event 5 false false 0 (-10) 3 = .ok .threeFingerSwipeUp ∧
    end_event_to_action_event 5 false false 0 10 3 = .ok .threeFingerSwipeDown ∧
    end_event_to_action_event 5 false false 10 0 4 = .ok .fourFingerSwipeRight ∧
    end_event_to_action_event 5 false false (-10) 0 4 = .ok .fourFingerSwipeLeft ∧
    end_event_to_action_event 5 false false 0 (-10) 4 = .ok .fourFingerSwipeUp ∧
    end_event_to_action_event 5 false false 0 10 4 = .ok .fourFingerSwipeDown := by
  refine ⟨?_, ?_, ?_, ?_, ?_, ?_, ?_, ?_⟩
  · exact classify_eval fingerCountTryFrom_three
      (not_sqrt_lt (by norm_num) (by norm_num)) octant_10_0 rfl
  · exact classify_eval fingerCountTryFrom_three
      (not_sqrt_lt (by norm_num) (by norm_num)) octant_neg10_0 rfl
  · exact classify_eval fingerCountTryFrom_three
      (not_sqrt_lt (by norm_num) (by norm_num)) octant_0_neg10 rfl
  · exact classify_eval fingerCountTryFrom_three
      (not_sqrt_lt (by norm_num) (by norm_num)) octant_0_10 rfl
  · exact classify_eval fingerCountTryFrom_four
      (not_sqrt_lt (by norm_num) (by norm_num)) octant_10_0 rfl
  · exact classify_eval fingerCountTryFrom_four
      (not_sqrt_lt (by norm_num) (by norm_num)) octant_neg10_0 rfl
  · exact classify_eval fingerCountTryFrom_four
      (not_sqrt_lt (by norm_num) (by norm_num)) octant_0_neg10 rfl
  · exact classify_eval fingerCountTryFrom_four
      (not_sqrt_lt (by norm_num) (by norm_num)) octant_0_10 rfl

/-- C7: `invert_x` negates the effective dx before direction bucketing
(and `invert_y` the effective dy): in general, classifying with an
inversion flag equals classifying the negated displacement without it,
and at the concrete raw input `(10, 0)` above threshold the result flips
from SwipeRight to SwipeLeft (similarly `(0, 10)`: SwipeDown becomes
SwipeUp). -/
theorem c7_invert_flags_negate_displacement :
    (∀ (threshold dx dy : ℝ) (fc : ℤ),
      end_event_to_action_event threshold true false dx dy fc
        = end_event_to_action_event threshold false false (-dx) dy fc) ∧
    (∀ (threshold dx dy : ℝ) (fc : ℤ),
      end_event_to_action_event threshold false true dx dy fc
        = end_event_to_action_event threshold false false dx (-dy) fc) ∧
    end_event_to_action_event 5 false false 10 0 3 = .ok .threeFingerSwipeRight ∧
    end_event_to_action_event 5 true false 10 0 3 = .ok .threeFingerSwipeLeft ∧
    end_event_to_action_event 5 false false 10 0 4 = .ok .fourFingerSwipeRight ∧
    end_event_to_action_event 5 true false 10 0 4 = .ok .fourFingerSwipeLeft ∧
    end_event_to_action_event 5 false false 0 10 3 = .ok .threeFingerSwipeDown ∧
    end_event_to_action_event 5 false true 0 10 3 = .ok .threeFingerSwipeUp ∧
    end_event_to_action_event 5 false false 0 10 4 = .ok .fourFingerSwipeDown ∧
    end_event_to_action_event 5 false true 0 10 4 = .ok .fourFingerSwipeUp := by
  refine ⟨?_, ?_, ?_, ?_, ?_, ?_, ?_, ?_, ?_, ?_⟩
  · intro threshold dx dy fc
    unfold end_event_to_action_event
    rw [neg_sq]
    rfl
  · intro threshold dx dy fc
    unfold end_event_to_action_event
    rw [neg_sq]
    rfl
  · exact classify_eval fingerCountTryFrom_three
      (not_sqrt_lt (by norm_num) (by norm_num)) octant_10_0 rfl
  · exact classify_eval fingerCountTryFrom_three
      (not_sqrt_lt (by norm_num) (by norm_num)) octant_neg10_0 rfl
  · exact classify_eval fingerCountTryFrom_four
      (not_sqrt_lt (by norm_num) (by norm_num)) octant_10_0 rfl
  · exact classify_eval fingerCountTryFrom_four
      (not_sqrt_lt (by norm_num) (by norm_num)) octant_neg10_0 rfl
  · exact classify_eval fingerCountTryFrom_three
      (not_sqrt_lt (by norm_num) (by norm_num)) octant_0_10 rfl
  · exact classify_eval fingerCountTryFrom_three
      (not_sqrt_lt (by norm_num) (by norm_num)) octant_0_neg10 rfl
  · exact classify_eval fingerCountTryFrom_four
      (not_sqrt_lt (by norm_num) (by norm_num)) octant_0_10 rfl
  · exact classify_eval fingerCountTryFrom_four
      (not_sqrt_lt (by norm_num) (by norm_num)) octant_0_neg10 rfl

/-- Witness for C7: the general inversion equation applied at the
concrete input `(10, 0)` with threshold 5 and finger count 3. -/
theorem c7_invert_flags_negate_displacement_witness :
    end_event_to_action_event 5 true false 10 0 3
      = end_event_to_action_event 5 false false (-10) 0 3 :=
  c7_invert_flags_negate_displacement.1 5 10 0 3

/-- C2 counterexample: at `(dx, dy) = (0, 0)` (displacement magnitude 0,
below the threshold 5) with finger count 5, the classifier returns
`UnsupportedFingerCount(5)` and not `DisplacementBelowThreshold(5)`: the
finger-count check runs before the threshold check, so the claim fails
for finger counts outside `{3, 4}`. -/
theorem c2_below_threshold_counterexample :
    Real.sqrt ((0:ℝ) ^ 2 + 0 ^ 2) < 5 ∧
    end_event_to_action_event 5 false false 0 0 5
      = .err (.unsupportedFingerCount 5) ∧
    end_event_to_action_event 5 false false 0 0 5
      ≠ .err (.displacementBelowThreshold 5) := by
  have heval : end_event_to_action_event 5 false false 0 0 5
      = .err (.unsupportedFingerCount 5) := rfl
  refine ⟨?_, heval, ?_⟩
  · rw [show (0:ℝ) ^ 2 + 0 ^ 2 = 0 by norm_num, Real.sqrt_zero]
    norm_num
  · rw [heval]
    intro hcontra
    exact ProcessorError.noConfusion (EndEventResult.err.inj hcontra)

/-- C2 (amended): for a valid finger count (3 or 4), every displacement
with `√(dx² + dy²) < threshold` is rejected with
`DisplacementBelowThreshold(threshold)`, for any inversion flags. -/
theorem c2_below_threshold_valid_fingers (threshold dx dy : ℝ)
    (ix iy : Bool) (fc : ℤ) (hfc : fc = 3 ∨ fc = 4)
    (h : Real.sqrt (dx ^ 2 + dy ^ 2) < threshold) :
    end_event_to_action_event threshold ix iy dx dy fc
      = .err (.displacementBelowThreshold threshold) := by
  rcases hfc with rfl | rfl
  · unfold end_event_to_action_event
    rw [fingerCountTryFrom_three]
    dsimp only
    rw [if_pos h]
  · unfold end_event_to_action_event
    rw [fingerCountTryFrom_four]
    dsimp only
    rw [if_pos h]

/-- Witness for C2 (amended): `(3, 0)` has magnitude 3, below the
threshold 5, and is rejected with `DisplacementBelowThreshold(5)` for
finger count 3. -/
theorem c2_below_threshold_valid_fingers_witness :
    Real.sqrt ((3:ℝ) ^ 2 + 0 ^ 2) < 5 ∧
    end_event_to_action_event 5 false false 3 0 3
      = .err (.displacementBelowThreshold 5) := by
  have h : Real.sqrt ((3:ℝ) ^ 2 + 0 ^ 2) < 5 := by
    rw [show (3:ℝ) ^ 2 + 0 ^ 2 = 3 ^ 2 by norm_num,
      Real.sqrt_sq (by norm_num : (0:ℝ) ≤ 3)]
    norm_num
  exact ⟨h, c2_below_threshold_valid_fingers 5 3 0 false false 3 (Or.inl rfl) h⟩

/-- C6: the rounded scaled angle always lies in `0..8`; the value 8 is
wrapped to octant 0; hence the final octant lies in `0..7` and the
16-arm match is exhaustive on all reachable inputs: whenever the finger
count is 3 or 4 and the magnitude reaches the threshold, the classifier
returns an event and the `todo!()` fall-through arm is never reached. -/
theorem c6_octant_range_no_panic :
    (∀ dx dy : ℝ,
      0 ≤ rustRound (eventAngle dx dy * 8) ∧ rustRound (eventAngle dx dy * 8) ≤ 8) ∧
    (∀ dx dy : ℝ, rustRound (eventAngle dx dy * 8) = 8 → get_event_octant dx dy = 0) ∧
    (∀ dx dy : ℝ, 0 ≤ get_event_octant dx dy ∧ get_event_octant dx dy ≤ 7) ∧
    (∀ (threshold dx dy : ℝ) (ix iy : Bool) (fc : ℤ), (fc = 3 ∨ fc = 4) →
      ¬ Real.sqrt (dx ^ 2 + dy ^ 2) < threshold →
      ∃ e, end_event_to_action_event threshold ix iy dx dy fc = .ok e) := by
  refine ⟨?_, ?_, get_event_octant_bounds, ?_⟩
  · intro dx dy
    obtain ⟨h₀, h₁⟩ := eventAngle_mem dx dy
    exact rustRound_bounds (by linarith) (by linarith)
  · intro dx dy h
    unfold get_event_octant
    rw [if_pos h]
  · intro threshold dx dy ix iy fc hfc hth
    obtain ⟨hb₀, hb₁⟩ := get_event_octant_bounds
      (if ix then -dx else dx) (if iy then -dy else dy)
    rcases hfc with rfl | rfl
    · obtain ⟨e, he⟩ := octantToActionEvent_total _ FingerCount.threeFinger hb₀ hb₁
      exact ⟨e, classify_eval fingerCountTryFrom_three hth rfl he⟩
    · obtain ⟨e, he⟩ := octantToActionEvent_total _ FingerCount.fourFinger hb₀ hb₁
      exact ⟨e, classify_eval fingerCountTryFrom_four hth rfl he⟩

/-- Witness for C6: octant bounds at `(10, 0)` and a successful
classification at threshold 5 with finger count 3. -/
theorem c6_octant_range_no_panic_witness :
    (0 ≤ get_event_octant 10 0 ∧ get_event_octant 10 0 ≤ 7) ∧
    ∃ e, end_event_to_action_event 5 false false 10 0 3 = .ok e :=
  ⟨c6_octant_range_no_panic.2.2.1 10 0,
    c6_octant_range_no_panic.2.2.2 5 10 0 false false 3 (Or.inl rfl)
      (not_sqrt_lt (by norm_num) (by norm_num))⟩

/-- C10: the event processor keeps no Idle/Tracking flag: its only state
is the accumulated `(dx, dy)`.  `Begin` always resets the accumulator to
`(0, 0)` (from any prior state); `Update` always adds its deltas, even
with no preceding `Begin`; `End` leaves the accumulator untouched, so a
second `End` without an intervening `Begin` classifies the same
still-accumulated displacement again, with the same result. -/
theorem c10_accumulator_stateless_transitions (threshold : ℝ)
    (ix iy : Bool) (dx dy ddx ddy : ℝ) (fc : ℤ) :
    process_event threshold ix iy .begin dx dy = (.ok none, 0, 0) ∧
    process_event threshold ix iy (.update ddx ddy) dx dy
      = (.ok none, dx + ddx, dy + ddy) ∧
    (process_event threshold ix iy (.endEvent fc) dx dy).2 = (dx, dy) ∧
    process_event threshold ix iy (.endEvent fc)
        (process_event threshold ix iy (.endEvent fc) dx dy).2.1
        (process_event threshold ix iy (.endEvent fc) dx dy).2.2
      = process_event threshold ix iy (.endEvent fc) dx dy :=
  ⟨rfl, rfl, rfl, rfl⟩

/-- Witness for C10: the transition equations instantiated at a concrete
state and event. -/
theorem c10_accumulator_stateless_transitions_witness :
    process_event 5 false false .begin 7 9 = (.ok none, 0, 0) ∧
    process_event 5 false false (.update 2 3) 7 9 = (.ok none, 7 + 2, 9 + 3) ∧
    (process_event 5 false false (.endEvent 3) 7 9).2 = (7, 9) ∧
    process_event 5 false false (.endEvent 3)
        (process_event 5 false false (.endEvent 3) 7 9).2.1
        (process_event 5 false false (.endEvent 3) 7 9).2.2
      = process_event 5 false false (.endEvent 3) 7 9 :=
  c10_accumulator_stateless_transitions 5 false false 7 9 2 3 3

/-- C3 counterexample: when shell-word splitting fails (`shlex::split`
returns `None`) or yields zero tokens, `CommandAction::execute_command`
does not return an `ExecutionError`: it panics (`unwrap` on `None`,
respectively out-of-bounds indexing of `split_commands[0]`). -/
theorem c3_command_split_failure_counterexample :
    commandExecuteCommand none (Except.ok ()) = .panicked ∧
    (commandExecuteCommand none (Except.ok ())).isErr = false ∧
    commandExecuteCommand (some []) (Except.ok ()) = .panicked ∧
    (commandExecuteCommand (some []) (Except.ok ())).isErr = false :=
  ⟨rfl, rfl, rfl, rfl⟩

/-- C3 (amended): `CommandAction.execute` returns an `ExecutionError`
exactly when splitting succeeded with at least one token and
spawning/waiting failed at the OS level; a failed split or an empty token
list causes a panic (a crash, not a returned error); a program that runs
and exits — with any exit code — yields `Ok`. -/
theorem c3_command_execute_characterization
    (splitResult : Option (List String)) (outputResult : Except String Unit) :
    (commandExecuteCommand splitResult outputResult = .panicked ↔
      splitResult = none ∨ splitResult = some []) ∧
    ((commandExecuteCommand splitResult outputResult).isErr = true ↔
      (∃ p args, splitResult = some (p :: args)) ∧ ∃ m, outputResult = .error m) ∧
    (∀ m, (∃ p args, splitResult = some (p :: args)) → outputResult = .error m →
      commandExecuteCommand splitResult outputResult
        = .err (.executionError "command" m)) ∧
    (commandExecuteCommand splitResult outputResult = .ok ↔
      (∃ p args, splitResult = some (p :: args)) ∧ outputResult = .ok ()) := by
  rcases splitResult with _ | (_ | ⟨p, args⟩) <;> rcases outputResult with m | u <;>
    simp [commandExecuteCommand, ExecOutcome.isErr]

/-- Witness for C3 (amended): a two-token command whose spawn fails at
the OS level yields the wrapped `ExecutionError` of kind `command`. -/
theorem c3_command_execute_characterization_witness :
    commandExecuteCommand (some ["touch", "/tmp/swipe-right"])
        (Except.error "No such file or directory")
      = .err (.executionError "command" "No such file or directory") :=
  (c3_command_execute_characterization _ _).2.2.1 "No such file or directory"
    ⟨"touch", ["/tmp/swipe-right"], rfl⟩ rfl

/-- C4: `I3Action::execute_command` fails exactly on the three listed
conditions — empty connection slot (message `i3 connection is not set`),
transport failure (message wrapped), or an unsuccessful outcome in the
reply (message `unsuccessful outcome(s)`) — and returns `Ok` when the
slot holds a connection, the command is issued and every reply outcome
succeeds. -/
theorem c4_ipc_execute_characterization
    (slotValue : Option I3Conn) (runResult : Except String (List Bool)) :
    (slotValue = none → i3ExecuteCommand slotValue runResult
      = .error (.executionError "i3" "i3 connection is not set")) ∧
    (∀ c m, slotValue = some c → runResult = .error m →
      i3ExecuteCommand slotValue runResult = .error (.executionError "i3" m)) ∧
    (∀ c outcomes, slotValue = some c → runResult = .ok outcomes →
      outcomes.any (fun x => !x) = true →
      i3ExecuteCommand slotValue runResult
        = .error (.executionError "i3" "unsuccessful outcome(s)")) ∧
    (i3ExecuteCommand slotValue runResult = .ok () ↔
      (∃ c, slotValue = some c) ∧
        ∃ outcomes, runResult = .ok outcomes ∧
          outcomes.any (fun x => !x) = false) := by
  refine ⟨?_, ?_, ?_, ?_⟩
  · rintro rfl
    rfl
  · rintro c m rfl rfl
    rfl
  · rintro c outcomes rfl rfl hany
    simp only [i3ExecuteCommand]
    rw [if_pos hany]
  · constructor
    · intro h
      rcases slotValue with _ | c
      · exact absurd h (by simp [i3ExecuteCommand])
      · rcases runResult with m | outcomes
        · exact absurd h (by simp [i3ExecuteCommand])
        · refine ⟨⟨c, rfl⟩, outcomes, rfl, ?_⟩
          by_cases hany : (outcomes.any fun x => !x) = true
          · have hres : i3ExecuteCommand (some c) (Except.ok outcomes)
                = .error (.executionError "i3" "unsuccessful outcome(s)") := by
              simp only [i3ExecuteCommand]
              rw [if_pos hany]
            rw [hres] at h
            exact Except.noConfusion h
          · exact Bool.eq_false_iff.mpr hany
    · rintro ⟨⟨c, rfl⟩, outcomes, rfl, hall⟩
      simp only [i3ExecuteCommand]
      rw [if_neg (by rw [hall]; exact Bool.false_ne_true)]

/-- Witness for C4: with a connection present and a reply whose outcomes
all succeed, the action returns `Ok`; the other hypotheses are
exercised at concrete inputs as well. -/
theorem c4_ipc_execute_characterization_witness :
    i3ExecuteCommand (some ()) (Except.ok [true, true]) = .ok () ∧
    i3ExecuteCommand none (Except.ok [true])
      = .error (.executionError "i3" "i3 connection is not set") ∧
    i3ExecuteCommand (some ()) (Except.error "transport down")
      = .error (.executionError "i3" "transport down") ∧
    i3ExecuteCommand (some ()) (Except.ok [true, false])
      = .error (.executionError "i3" "unsuccessful outcome(s)") :=
  ⟨(c4_ipc_execute_characterization (some ()) (Except.ok [true, true])).2.2.2.mpr
      ⟨⟨(), rfl⟩, [true, true], rfl, rfl⟩,
    (c4_ipc_execute_characterization none (Except.ok [true])).1 rfl,
    (c4_ipc_execute_characterization (some ()) (Except.error "transport down")).2.1
      () "transport down" rfl rfl,
    (c4_ipc_execute_characterization (some ()) (Except.ok [true, false])).2.2.1
      () [true, false] rfl rfl rfl⟩

/-- C8: dispatching an `ActionEvent` with a registered list executes
every registered action exactly once, in registration order (the
execution trace is exactly the registered list); a failing action only
contributes a warning and neither stops the remaining actions nor makes
the dispatch return an error (the result is always `Ok`). -/
theorem c8_dispatch_executes_all_in_order {α : Type}
    (exec : α → Except ActionError Unit)
    (actions : List (ActionEvent × List α)) (ev : ActionEvent) (l : List α)
    (hlookup : actions.lookup ev = some l) :
    receiveEndEvent exec actions ev = .ok (l, warningsOf exec l) := by
  unfold receiveEndEvent
  rw [hlookup]
  dsimp only
  rw [dispatchLoop_eq]

/-- Witness for C8: a registered list `[failing, succeeding]` — both
actions run, in order, the failure is logged, and dispatch returns `Ok`. -/
theorem c8_dispatch_executes_all_in_order_witness :
    receiveEndEvent
        (fun n : ℕ => if n = 0 then .error (.executionError "command" "boom")
          else .ok ())
        [(ActionEvent.threeFingerSwipeRight, [0, 1])]
        ActionEvent.threeFingerSwipeRight
      = .ok ([0, 1], [.executionError "command" "boom"]) :=
  (c8_dispatch_executes_all_in_order
    (fun n : ℕ => if n = 0 then .error (.executionError "command" "boom")
      else .ok ())
    [(ActionEvent.threeFingerSwipeRight, [0, 1])]
    ActionEvent.threeFingerSwipeRight [0, 1] rfl).trans rfl

/-- C9: the shared connection slot is written at most once, during
`extract_action_map`: never when no i3-kind action is configured; written
with `Some(conn)` when an i3 action is configured and the connect
succeeds; written with `None` when the connect fails.  Every IPC action
invocation afterwards only reads the slot and leaves it unchanged,
including on its error paths. -/
theorem c9_connection_slot_single_write (settings : SettingsModel)
    (connectResult : Except String I3Conn) :
    ((extractActionMap settings connectResult).2.writes.length ≤ 1) ∧
    ((settings.actions.any fun kv => kv.2.any fun s => s.type_ == "i3") = false →
      (extractActionMap settings connectResult).2.writes = [] ∧
      (extractActionMap settings connectResult).2.value = none) ∧
    (∀ c, (settings.actions.any fun kv => kv.2.any fun s => s.type_ == "i3") = true →
      connectResult = .ok c →
      (extractActionMap settings connectResult).2.writes = [some c] ∧
      (extractActionMap settings connectResult).2.value = some c) ∧
    (∀ m, (settings.actions.any fun kv => kv.2.any fun s => s.type_ == "i3") = true →
      connectResult = .error m →
      (extractActionMap settings connectResult).2.writes = [none] ∧
      (extractActionMap settings connectResult).2.value = none) ∧
    (∀ (s : SlotState) (runResult : Except String (List Bool)),
      (i3ExecuteCommandST s runResult).2 = s) := by
  cases hA : (settings.actions.any fun kv => kv.2.any fun s => s.type_ == "i3") <;>
    rcases connectResult with m | c
  · refine ⟨?_, fun _ => ⟨?_, ?_⟩, ?_, ?_, fun s r => rfl⟩
    · simp [extractActionMap, hA]
    · simp [extractActionMap, hA]
    · simp [extractActionMap, hA]
    · intro c h
      exact absurd h (by simp)
    · intro m' h
      exact absurd h (by simp)
  · refine ⟨?_, fun _ => ⟨?_, ?_⟩, ?_, ?_, fun s r => rfl⟩
    · simp [extractActionMap, hA]
    · simp [extractActionMap, hA]
    · simp [extractActionMap, hA]
    · intro c' h
      exact absurd h (by simp)
    · intro m' h
      exact absurd h (by simp)
  · refine ⟨?_, ?_, ?_, ?_, fun s r => rfl⟩
    · simp [extractActionMap, hA, slotWrite]
    · intro h
      exact absurd h (by simp)
    · intro c' _ hc
      exact Except.noConfusion hc
    · rintro m' _ hm
      injection hm with hm'
      subst hm'
      exact ⟨by simp [extractActionMap, hA, slotWrite],
        by simp [extractActionMap, hA, slotWrite]⟩
  · refine ⟨?_, ?_, ?_, ?_, fun s r => rfl⟩
    · simp [extractActionMap, hA, slotWrite]
    · intro h
      exact absurd h (by simp)
    · rintro c' _ hc
      injection hc with hc'
      subst hc'
      exact ⟨by simp [extractActionMap, hA, slotWrite],
        by simp [extractActionMap, hA, slotWrite]⟩
    · intro m' _ hm
      exact Except.noConfusion hm

/-- Witness for C9: the default settings configure i3 actions, and a
failed connect stores `None` via exactly one write. -/
theorem c9_connection_slot_single_write_witness :
    (extractActionMap defaultSettings (Except.error "connection refused")).2.writes
      = [none] ∧
    (extractActionMap defaultSettings (Except.error "connection refused")).2.value
      = none :=
  (c9_connection_slot_single_write defaultSettings
    (Except.error "connection refused")).2.2.2.1 "connection refused" rfl rfl

/-- C1 (failing-input evaluation): the registry is NOT total.  With the
production default settings (whose `actions` table lists only the eight
axis-direction keys) and an unavailable i3 server, the registry built by
`extract_action_map` has no entry for `ThreeFingerSwipeLeftUp`; yet the
classifier maps the diagonal swipe `(-20, -20)` with 3 fingers (threshold
20) to exactly that event, and the dispatcher lookup then returns the
missing-key error `NoActionsRegistered`. -/
theorem c1_registry_missing_diagonal_key :
    end_event_to_action_event 20 false false (-20) (-20) 3
      = .ok .threeFingerSwipeLeftUp ∧
    ((extractActionMap defaultSettings
        (Except.error "connection refused")).1).lookup
        ActionEvent.threeFingerSwipeLeftUp = none ∧
    receiveEndEvent (fun _ : RegisteredAction => Except.ok ())
        (extractActionMap defaultSettings (Except.error "connection refused")).1
        ActionEvent.threeFingerSwipeLeftUp
      = .error (.noActionsRegistered .threeFingerSwipeLeftUp) := by
  have hlookup : ((extractActionMap defaultSettings
      (Except.error "connection refused")).1).lookup
      ActionEvent.threeFingerSwipeLeftUp = none := by decide
  refine ⟨?_, hlookup, ?_⟩
  · exact classify_eval fingerCountTryFrom_three
      (not_sqrt_lt (by norm_num) (by norm_num)) octant_neg20_neg20 rfl
  · unfold receiveEndEvent
    rw [hlookup]

end Lillinput
